import Mathlib

/-!
Verification of the condor_analysis modules of PATh_Scripts against their
specification.  The Python sources are shallowly embedded: timestamps are
modelled as rationals (seconds since epoch; `datetime.fromtimestamp` is
strictly monotone, so comparisons and differences of the datetime objects
coincide with those of the raw numeric timestamps), absent JSON fields are
`Option.none`, and Python exceptions are explicit error constructors.
-/

namespace Condor

/-- Lifecycle phase of a job, as used by gantt_chart.py and
plot_gantt_phases.py. -/
inductive Phase where
  | inputTransfer
  | execution
  | outputTransfer
  deriving DecidableEq, Repr

/-- One raw HTCondor history record (one JSON object): the fields of
interest read by condor_to_parquet.parse_condor_history and
gantt_chart.parse_condor_history, each optional. -/
structure RawJob where
  clusterId : Option Int
  procId : Option Int
  jobStatus : Option Int
  exitCode : Option Int
  jobStart : Option ℚ
  inputStart : Option ℚ
  inputEnd : Option ℚ
  outputStart : Option ℚ
  outputEnd : Option ℚ
  jobEnd : Option ℚ
  completion : Option ℚ
  deriving DecidableEq, Repr

/-- Python truthiness of an optional numeric value: `None` and `0` are
falsy, every other number is truthy.  This is the test performed by
`if ts:` and `if a and b:` in both parsers. -/
def pyTruthy : Option ℚ → Bool
  | none => false
  | some v => v != 0

/-- `datetime.fromtimestamp(ts) if ts else None`
(condor_to_parquet.py lines 57-63), keeping the numeric timestamp as the
model of the datetime object.  Note that a present value of 0 is falsy in
Python, so it maps to `none`. -/
def toInstant : Option ℚ → Option ℚ
  | none => none
  | some v => if v = 0 then none else some v

/-- `end_ts - start_ts if start_ts and end_ts else None`
(condor_to_parquet.py lines 66-80). -/
def durationOf (s e : Option ℚ) : Option ℚ :=
  if pyTruthy s && pyTruthy e then some (e.getD 0 - s.getD 0) else none

/-- `failed = (job_status != 4) or (exit_code != 0)` where the fields are
read with `job.get('JobStatus', 0)` and `job.get('ExitCode', 0)`
(condor_to_parquet.py lines 44-45 and 83; gantt_chart.py lines 53-57). -/
def failedOf (status ec : Option Int) : Bool :=
  (status.getD 0 != 4) || (ec.getD 0 != 0)

/-- One row of the DataFrame built by condor_to_parquet.parse_condor_history
(the `record` dict of lines 86-107). -/
structure JobRec where
  cluster_id : Option Int
  proc_id : Option Int
  job_status : Int
  exit_code : Int
  failed : Bool
  job_start_time : Option ℚ
  input_start_time : Option ℚ
  input_end_time : Option ℚ
  output_start_time : Option ℚ
  output_end_time : Option ℚ
  job_end_time : Option ℚ
  completion_time : Option ℚ
  input_transfer_duration : Option ℚ
  job_duration : Option ℚ
  output_transfer_duration : Option ℚ
  total_duration : Option ℚ
  deriving DecidableEq, Repr

/-- The body of the per-job loop of condor_to_parquet.parse_condor_history
(lines 40-109): the record normalizer. -/
def normalizeJob (j : RawJob) : JobRec where
  cluster_id := j.clusterId
  proc_id := j.procId
  job_status := j.jobStatus.getD 0
  exit_code := j.exitCode.getD 0
  failed := failedOf j.jobStatus j.exitCode
  job_start_time := toInstant j.jobStart
  input_start_time := toInstant j.inputStart
  input_end_time := toInstant j.inputEnd
  output_start_time := toInstant j.outputStart
  output_end_time := toInstant j.outputEnd
  job_end_time := toInstant j.jobEnd
  completion_time := toInstant j.completion
  input_transfer_duration := durationOf j.inputStart j.inputEnd
  job_duration := durationOf j.jobStart j.jobEnd
  output_transfer_duration := durationOf j.outputStart j.outputEnd
  total_duration := durationOf j.jobStart j.completion

/-- One phase record appended by gantt_chart.parse_condor_history
(lines 66-111). -/
structure PhaseRec where
  phase : Phase
  start_time : ℚ
  end_time : ℚ
  duration : ℚ
  failed : Bool
  deriving DecidableEq, Repr

/-- The body of the per-job loop of gantt_chart.parse_condor_history
(lines 50-111): the parse-time phase decomposer.  Each of the three phases
is guarded only by Python truthiness of its timestamps; no check that the
end is not earlier than the start is performed. -/
def ganttDecompose (j : RawJob) : List PhaseRec :=
  let failed := failedOf j.jobStatus j.exitCode
  let inputPart : List PhaseRec :=
    if pyTruthy j.inputStart && pyTruthy j.inputEnd then
      [⟨Phase.inputTransfer, j.inputStart.getD 0, j.inputEnd.getD 0,
        j.inputEnd.getD 0 - j.inputStart.getD 0, failed⟩]
    else []
  let execPart : List PhaseRec :=
    if pyTruthy j.inputEnd && pyTruthy j.outputStart then
      [⟨Phase.execution, j.inputEnd.getD 0, j.outputStart.getD 0,
        j.outputStart.getD 0 - j.inputEnd.getD 0, failed⟩]
    else []
  let outPart : List PhaseRec :=
    if pyTruthy j.outputStart && pyTruthy j.outputEnd then
      [⟨Phase.outputTransfer, j.outputStart.getD 0, j.outputEnd.getD 0,
        j.outputEnd.getD 0 - j.outputStart.getD 0, failed⟩]
    else if failed && (pyTruthy j.outputStart && pyTruthy j.completion) then
      [⟨Phase.outputTransfer, j.outputStart.getD 0, j.completion.getD 0,
        j.completion.getD 0 - j.outputStart.getD 0, failed⟩]
    else []
  inputPart ++ (execPart ++ outPart)

/-- One bar drawn by plot_gantt_phases.plot_gantt_phases (lines 86-113). -/
structure PlottedBar where
  phase : Phase
  start_time : ℚ
  end_time : ℚ
  duration : ℚ
  deriving DecidableEq, Repr

/-- One guarded bar of plot_gantt_phases.plot_gantt_phases: drawn only if
both endpoint columns are non-null (`pd.notna`) and the duration is
strictly positive (`if duration > 0: # Only plot positive durations`). -/
def phaseBar (ph : Phase) (s e : Option ℚ) : List PlottedBar :=
  match s, e with
  | some a, some b => if b - a > 0 then [⟨ph, a, b, b - a⟩] else []
  | _, _ => []

/-- The bars that plot_gantt_phases.plot_gantt_phases draws for one
DataFrame row (lines 86-113). -/
def plottedPhases (r : JobRec) : List PlottedBar :=
  phaseBar Phase.inputTransfer r.input_start_time r.input_end_time ++
  (phaseBar Phase.execution r.input_end_time r.output_start_time ++
    phaseBar Phase.outputTransfer r.output_start_time r.output_end_time)

/-- Minimum of a list of rationals, as `pandas.Series.min()` over a
nonempty column (the empty case never reaches it in the modelled paths;
0 is a formal default). -/
def listMin : List ℚ → ℚ
  | [] => 0
  | x :: xs => xs.foldl min x

/-- Maximum of a list of rationals, as `pandas.Series.max()`. -/
def listMax : List ℚ → ℚ
  | [] => 0
  | x :: xs => xs.foldl max x

/-- The rows of the DataFrame kept by plot_concurrent_jobs line 42:
both `job_start_time` and `completion_time` are non-null. -/
def validJobs (df : List JobRec) : List JobRec :=
  df.filter (fun r => r.job_start_time.isSome && r.completion_time.isSome)

/-- `start_time = df_valid['job_start_time'].min()`
(plot_concurrent_jobs.py line 51). -/
def concStart (valid : List JobRec) : ℚ :=
  listMin (valid.filterMap (fun r => r.job_start_time))

/-- `end_time = df_valid['completion_time'].max()`
(plot_concurrent_jobs.py line 52). -/
def concEnd (valid : List JobRec) : ℚ :=
  listMax (valid.filterMap (fun r => r.completion_time))

/-- `num_bins = int(np.ceil(total_duration / resolution_seconds))`
(plot_concurrent_jobs.py line 59). -/
def concNumBins (valid : List JobRec) (res : ℚ) : ℤ :=
  ⌈(concEnd valid - concStart valid) / res⌉

/-- Center of bin `i`: `bin_start + (bin_end - bin_start) / 2` where
`bin_start = start_time + i * resolution` (plot_concurrent_jobs.py
lines 70-73, with `pd.date_range` producing equally spaced edges). -/
def binCenter (t0 res : ℚ) (i : ℕ) : ℚ := t0 + res * i + res / 2

/-- The `concurrent_counts` list built by the loop of
plot_concurrent_jobs.py lines 70-87: one bin per element of
`range(len(time_bins) - 1)`, counting the rows with
`job_start_time <= bin_center` and `completion_time > bin_center`. -/
def concurrentCounts (valid : List JobRec) (res : ℚ) : List ℕ :=
  (List.range (concNumBins valid res).toNat).map (fun i =>
    (valid.filter (fun r =>
      decide (r.job_start_time.getD 0 ≤ binCenter (concStart valid) res i) &&
      decide (binCenter (concStart valid) res i < r.completion_time.getD 0))).length)

/-- The Python exceptions that the modelled analyzer code can raise. -/
inductive PyError where
  | zeroDivision
  | valueErrorNegativePeriods
  | valueErrorEmptyMax
  deriving DecidableEq, Repr

/-- Possible outcomes of plot_concurrent_jobs.  The `configError`
constructor models the rejection of an invalid parameter demanded by the
specification; it exists so that the demand is statable, the code has no
path producing it. -/
inductive ConcResult where
  | configError (resolution : ℚ)
  | runtimeError (e : PyError)
  | emptyReturn
  | ok (counts : List ℕ) (maxCount : ℕ)
  deriving DecidableEq, Repr

/-- plot_concurrent_jobs.plot_concurrent_jobs (lines 30-97), up to the
concurrency statistics.  The function filters, prints and computes the
time range, then divides `total_duration / resolution_seconds` with no
prior validation of the resolution: a zero resolution raises
ZeroDivisionError there; a negative resolution either makes
`pd.date_range` raise on negative `periods` or leaves `concurrent_counts`
empty so that `max(concurrent_counts)` raises; no branch reports a
configuration error. -/
def plot_concurrent_jobs (df : List JobRec) (res : ℚ) : ConcResult :=
  if (validJobs df).isEmpty then ConcResult.emptyReturn
  else if res = 0 then ConcResult.runtimeError PyError.zeroDivision
  else if concNumBins (validJobs df) res + 1 < 0 then
    ConcResult.runtimeError PyError.valueErrorNegativePeriods
  else
    match concurrentCounts (validJobs df) res with
    | [] => ConcResult.runtimeError PyError.valueErrorEmptyMax
    | c :: cs => ConcResult.ok (c :: cs) (cs.foldl max c)

/-- The summary data plot_completion_curve reports (lines 44-58):
the sorted cumulative curve, first and last completion, total elapsed
seconds and the printed completion rate in jobs per minute.  The rate
field is optional so that the specification's demand of an undefined rate
is statable; the code never produces `none` there. -/
structure CompletionSummary where
  curve : List (ℚ × ℕ)
  first_completion : ℚ
  last_completion : ℚ
  total_duration : ℚ
  rate : Option ℚ
  deriving DecidableEq, Repr

/-- plot_completion_curve.plot_completion_curve (lines 33-58), up to the
printed statistics.  The rate `len(df_complete) / (total_duration/60)` is
an unconditional division: when the elapsed time is zero it raises
ZeroDivisionError.  An empty completion column would propagate pandas
NaT/NaN values; that path is modelled as an error outcome. -/
def plot_completion_curve (completions : List ℚ) : Except PyError CompletionSummary :=
  if completions.isEmpty then Except.error PyError.valueErrorEmptyMax
  else
    let sorted := List.insertionSort (· ≤ ·) completions
    let first := listMin completions
    let last := listMax completions
    let total := last - first
    if total = 0 then Except.error PyError.zeroDivision
    else
      Except.ok
        { curve := sorted.enum.map (fun p => (p.2, p.1 + 1))
          first_completion := first
          last_completion := last
          total_duration := total
          rate := some ((completions.length : ℚ) / (total / 60)) }

/-- The positive sample kept by plot_duration_histograms lines 91-94:
drop nulls, keep strictly positive values. -/
def posSample (data : List (Option ℚ)) : List ℚ :=
  (data.filterMap id).filter (fun x => decide (0 < x))

/-- `np.mean` over a nonempty sample. -/
def meanOf (l : List ℚ) : ℚ := l.sum / l.length

/-- The sample sorted ascending (stable), as numpy sorts internally for
median and percentile. -/
def sortedAsc (l : List ℚ) : List ℚ := List.insertionSort (· ≤ ·) l

/-- `np.median`: middle element for odd length, average of the two middle
elements for even length. -/
def medianOf (l : List ℚ) : ℚ :=
  if (sortedAsc l).length % 2 = 1 then
    (sortedAsc l).getD ((sortedAsc l).length / 2) 0
  else
    ((sortedAsc l).getD ((sortedAsc l).length / 2 - 1) 0 +
      (sortedAsc l).getD ((sortedAsc l).length / 2) 0) / 2

/-- The interpolation position of `np.percentile(a, 99)`:
`(n - 1) * 99/100`. -/
def pctPos (l : List ℚ) : ℚ := (99 : ℚ) / 100 * (((sortedAsc l).length : ℚ) - 1)

/-- `np.percentile(a, 99)` with the default linear interpolation between
the order statistics around the interpolation position. -/
def percentile99 (l : List ℚ) : ℚ :=
  (sortedAsc l).getD (⌊pctPos l⌋).toNat 0 +
    (pctPos l - ((⌊pctPos l⌋).toNat : ℚ)) *
      ((sortedAsc l).getD ((⌊pctPos l⌋).toNat + 1)
          ((sortedAsc l).getD (⌊pctPos l⌋).toNat 0) -
        (sortedAsc l).getD (⌊pctPos l⌋).toNat 0)

/-- The last element of `np.histogram(a, bins='auto')[1]`: the bin edges
span `[a.min(), a.max()]`, so the last edge is the maximum of the sample;
when all values coincide numpy widens the range by one half on each side. -/
def histAutoLastEdge (l : List ℚ) : ℚ :=
  if listMin l = listMax l then listMax l + 1 / 2 else listMax l

/-- The per-column summary of plot_duration_histograms lines 90-148. -/
structure DistSummary where
  mean : ℚ
  median : ℚ
  trimmed : Bool
  trimUpperBound : Option ℚ
  excludedCount : ℕ
  sampleCount : ℕ
  deriving DecidableEq, Repr

/-- `x_max = min(bin_edges[-1], p99)` (plot_duration_histograms.py
line 122). -/
def trimBound (pos : List ℚ) : ℚ :=
  min (histAutoLastEdge pos) (percentile99 pos)

/-- The body of the per-phase loop of
plot_duration_histograms.plot_duration_histograms (lines 86-148):
drop nulls and non-positive values; `continue` (modelled as `none`) when
nothing remains; detect outliers with `mean > 5 * median`; when detected,
trim at `min(bin_edges[-1], p99)` and count the samples strictly above
the bound. -/
def analyzeColumn (data : List (Option ℚ)) : Option DistSummary :=
  if (posSample data).isEmpty then none
  else if meanOf (posSample data) > 5 * medianOf (posSample data) then
    some { mean := meanOf (posSample data)
           median := medianOf (posSample data)
           trimmed := true
           trimUpperBound := some (trimBound (posSample data))
           excludedCount := (posSample data).countP
             (fun x => decide (trimBound (posSample data) < x))
           sampleCount := (posSample data).length }
  else
    some { mean := meanOf (posSample data)
           median := medianOf (posSample data)
           trimmed := false
           trimUpperBound := none
           excludedCount := 0
           sampleCount := (posSample data).length }

/-- A raw record with every field absent, the base for concrete test
records. -/
def emptyRawJob : RawJob :=
  ⟨none, none, none, none, none, none, none, none, none, none, none⟩

/-- A completed successful job: JobStatus 4, ExitCode 0. -/
def rawStatus4Exit0 : RawJob :=
  { emptyRawJob with jobStatus := some 4, exitCode := some 0 }

/-- A completed job with nonzero exit code. -/
def rawStatus4Exit1 : RawJob :=
  { emptyRawJob with jobStatus := some 4, exitCode := some 1 }

/-- A removed job (JobStatus 3) with a clean exit code. -/
def rawStatus3 : RawJob :=
  { emptyRawJob with jobStatus := some 3, exitCode := some 0 }

/-- A record with JobStatus absent. -/
def rawNoStatus : RawJob := { emptyRawJob with exitCode := some 0 }

/-- A completed record with ExitCode absent. -/
def rawStatus4NoExit : RawJob := { emptyRawJob with jobStatus := some 4 }

/-- A record whose CompletionDate is present with the value 0 (epoch). -/
def rawZeroCompletion : RawJob := { emptyRawJob with completion := some 0 }

/-- A record whose input transfer runs backwards in time. -/
def rawBackwardInput : RawJob :=
  { emptyRawJob with inputStart := some 100, inputEnd := some 50 }

/-- Presence of the normalized instant is exactly Python truthiness of the
raw timestamp. -/
theorem toInstant_isSome (x : Option ℚ) : (toInstant x).isSome = pyTruthy x := by
  cases x with
  | none => rfl
  | some v => by_cases h : v = 0 <;> simp [toInstant, pyTruthy, h]

/-- Presence of a derived duration is exactly Python truthiness of both of
its raw endpoint timestamps. -/
theorem durationOf_isSome (s e : Option ℚ) :
    (durationOf s e).isSome = (pyTruthy s && pyTruthy e) := by
  unfold durationOf
  split <;> simp_all

/-- C5: for records carrying both fields, the normalizer sets `failed`
to true exactly when the status differs from 4 (Completed) or the exit
code differs from 0; a status of 3 (Removed) yields `failed = true`
regardless of the exit code field. -/
theorem failed_rule :
    (∀ (j : RawJob) (s e : Int), j.jobStatus = some s → j.exitCode = some e →
      ((normalizeJob j).failed = true ↔ s ≠ 4 ∨ e ≠ 0)) ∧
    (∀ j : RawJob, j.jobStatus = some 3 → (normalizeJob j).failed = true) := by
  constructor
  · intro j s e hs he
    simp [normalizeJob, failedOf, hs, he]
  · intro j hs
    simp [normalizeJob, failedOf, hs]

/-- C5 witness: the three literal scenarios, status 4 / exit 0 is not
failed, status 4 / exit 1 is failed, status 3 is failed. -/
theorem failed_rule_witness :
    ((normalizeJob rawStatus4Exit0).failed = true ↔ (4 : Int) ≠ 4 ∨ (0 : Int) ≠ 0) ∧
    ((normalizeJob rawStatus4Exit1).failed = true ↔ (4 : Int) ≠ 4 ∨ (1 : Int) ≠ 0) ∧
    (normalizeJob rawStatus3).failed = true :=
  ⟨failed_rule.1 rawStatus4Exit0 4 0 rfl rfl,
   failed_rule.1 rawStatus4Exit1 4 1 rfl rfl,
   failed_rule.2 rawStatus3 rfl⟩

/-- C10: an absent JobStatus is substituted by 0, so the job is classified
failed whatever its exit code field holds; an absent ExitCode on a
completed job is substituted by 0, so the job is classified not failed. -/
theorem missing_field_defaults :
    (∀ j : RawJob, j.jobStatus = none →
      (normalizeJob j).job_status = 0 ∧ (normalizeJob j).failed = true) ∧
    (∀ j : RawJob, j.jobStatus = some 4 → j.exitCode = none →
      (normalizeJob j).exit_code = 0 ∧ (normalizeJob j).failed = false) := by
  constructor
  · intro j hs
    constructor <;> simp [normalizeJob, failedOf, hs]
  · intro j hs he
    constructor <;> simp [normalizeJob, failedOf, hs, he]

/-- C10 witness: the two substitutions on concrete records. -/
theorem missing_field_defaults_witness :
    ((normalizeJob rawNoStatus).job_status = 0 ∧
      (normalizeJob rawNoStatus).failed = true) ∧
    ((normalizeJob rawStatus4NoExit).exit_code = 0 ∧
      (normalizeJob rawStatus4NoExit).failed = false) :=
  ⟨missing_field_defaults.1 rawNoStatus rfl,
   missing_field_defaults.2 rawStatus4NoExit rfl rfl⟩

/-- C9 counterexample: a CompletionDate present with value 0 (epoch) is
normalized to an absent instant, not to a present instant distinct from
absence: Python truthiness conflates 0 with `None`. -/
theorem instant_zero_counterexample :
    rawZeroCompletion.completion = some 0 ∧
    (normalizeJob rawZeroCompletion).completion_time = none := by
  constructor <;> rfl

/-- C9 (amended): the normalizer maps an absent timestamp to an absent
instant and a present nonzero timestamp to a present instant, but a
present timestamp of 0 (epoch) is also mapped to an absent instant. -/
theorem instant_mapping_amended :
    (∀ j : RawJob, (normalizeJob j).completion_time = toInstant j.completion) ∧
    toInstant none = none ∧
    (∀ v : ℚ, v ≠ 0 → toInstant (some v) = some v) ∧
    toInstant (some 0) = none := by
  refine ⟨fun j => rfl, rfl, fun v hv => ?_, ?_⟩
  · simp [toInstant, hv]
  · simp [toInstant]

/-- C9 witness: a present nonzero timestamp survives normalization. -/
theorem instant_mapping_amended_witness :
    toInstant (some (5 : ℚ)) = some 5 :=
  instant_mapping_amended.2.2.1 5 (by norm_num)

/-- C4 (amended): each of the four derived durations of a normalized
record is present exactly when both of its endpoint instants are present;
no lower bound on a present duration is guaranteed. -/
theorem duration_presence_amended (j : RawJob) :
    ((normalizeJob j).input_transfer_duration.isSome =
      ((normalizeJob j).input_start_time.isSome &&
        (normalizeJob j).input_end_time.isSome)) ∧
    ((normalizeJob j).job_duration.isSome =
      ((normalizeJob j).job_start_time.isSome &&
        (normalizeJob j).job_end_time.isSome)) ∧
    ((normalizeJob j).output_transfer_duration.isSome =
      ((normalizeJob j).output_start_time.isSome &&
        (normalizeJob j).output_end_time.isSome)) ∧
    ((normalizeJob j).total_duration.isSome =
      ((normalizeJob j).job_start_time.isSome &&
        (normalizeJob j).completion_time.isSome)) := by
  refine ⟨?_, ?_, ?_, ?_⟩ <;>
    simp [normalizeJob, toInstant_isSome, durationOf_isSome]

/-- C4 counterexample: an input transfer recorded backwards in time yields
a present, strictly negative derived duration, refuting the claim that
every present duration is non-negative. -/
theorem duration_negative_counterexample :
    (normalizeJob rawBackwardInput).input_transfer_duration = some (-50) ∧
    ((-50 : ℚ) < 0) := by
  constructor
  · norm_num [normalizeJob, rawBackwardInput, emptyRawJob, durationOf, pyTruthy]
  · norm_num

/-- A failed record whose output transfer start is present with value 0
and whose output transfer end is absent. -/
def rawZeroOutputStart : RawJob :=
  { emptyRawJob with
    jobStatus := some 3
    outputStart := some 0
    completion := some 150 }

/-- The literal fallback scenario: a failed job with outputTransferStart
100, outputTransferEnd absent, completion 150. -/
def rawFallback : RawJob :=
  { emptyRawJob with
    jobStatus := some 3
    outputStart := some 100
    completion := some 150 }

/-- C3 counterexample: a failed job whose outputTransferEnd is absent and
whose outputTransferStart and completion are both present, with
outputTransferStart = 0, yields no Output Transfer interval at all: the
truthiness guard `output_start and completion_date` treats the present
value 0 as absent. -/
theorem output_fallback_counterexample :
    failedOf rawZeroOutputStart.jobStatus rawZeroOutputStart.exitCode = true ∧
    rawZeroOutputStart.outputEnd = none ∧
    rawZeroOutputStart.outputStart = some 0 ∧
    rawZeroOutputStart.completion = some 150 ∧
    ganttDecompose rawZeroOutputStart = [] := by
  refine ⟨rfl, rfl, rfl, rfl, ?_⟩
  simp [ganttDecompose, rawZeroOutputStart, emptyRawJob, pyTruthy, failedOf]

/-- C3 (amended): for a failed job with outputTransferEnd absent and
outputTransferStart and completion both present with nonzero values, the
decomposer emits the Output Transfer interval from outputTransferStart to
completion via the fallback branch. -/
theorem output_fallback_amended (j : RawJob) (os c : ℚ)
    (hfail : failedOf j.jobStatus j.exitCode = true)
    (hend : j.outputEnd = none)
    (hos : j.outputStart = some os) (hosne : os ≠ 0)
    (hc : j.completion = some c) (hcne : c ≠ 0) :
    (⟨Phase.outputTransfer, os, c, c - os, true⟩ : PhaseRec) ∈
      ganttDecompose j := by
  have h1 : (os != 0) = true := by simpa using hosne
  have h2 : (c != 0) = true := by simpa using hcne
  simp [ganttDecompose, hend, hos, hc, hfail, pyTruthy, h1, h2]

/-- C3 witness: the literal scenario yields the interval from 100 to 150. -/
theorem output_fallback_amended_witness :
    (⟨Phase.outputTransfer, 100, 150, 50, true⟩ : PhaseRec) ∈
      ganttDecompose rawFallback := by
  have h := output_fallback_amended rawFallback 100 150 rfl rfl rfl
    (by norm_num) rfl (by norm_num)
  norm_num at h
  exact h

/-- C6 counterexample: the parse-time decomposer of gantt_chart.py emits
an Input Transfer interval whose end (50) is strictly earlier than its
start (100); no discarding of such intervals is performed there. -/
theorem negative_interval_counterexample :
    ganttDecompose rawBackwardInput =
      [⟨Phase.inputTransfer, 100, 50, -50, true⟩] ∧
    (50 : ℚ) < 100 := by
  constructor
  · norm_num [ganttDecompose, rawBackwardInput, emptyRawJob, pyTruthy, failedOf]
  · norm_num

/-- C6 (amended): the plotting decomposer of plot_gantt_phases.py only
draws phases with strictly positive duration, so every drawn bar has its
start strictly before its end; the parse-time decomposer of gantt_chart.py
performs no such check and can emit an interval with end before start. -/
theorem plotted_phase_positive (r : JobRec) (p : PlottedBar)
    (hp : p ∈ plottedPhases r) : p.start_time < p.end_time := by
  have main : ∀ (ph : Phase) (a b : Option ℚ), p ∈ phaseBar ph a b →
      p.start_time < p.end_time := by
    intro ph a b hmem
    unfold phaseBar at hmem
    split at hmem
    · simp at hmem
      rcases hmem with ⟨hlt, hp2⟩
      subst hp2
      simpa using hlt
    · simp at hmem
  unfold plottedPhases at hp
  rw [List.mem_append] at hp
  rcases hp with hp | hp
  · exact main _ _ _ hp
  · rw [List.mem_append] at hp
    rcases hp with hp | hp
    · exact main _ _ _ hp
    · exact main _ _ _ hp

/-- A normalized row with only an input transfer, used as the C6 witness
input. -/
def rowInputOnly : JobRec :=
  { cluster_id := none, proc_id := none, job_status := 0, exit_code := 0,
    failed := true, job_start_time := none, input_start_time := some 0,
    input_end_time := some 10, output_start_time := none,
    output_end_time := none, job_end_time := none, completion_time := none,
    input_transfer_duration := none, job_duration := none,
    output_transfer_duration := none, total_duration := none }

/-- C6 witness: a concrete drawn bar satisfies start before end. -/
theorem plotted_phase_positive_witness :
    (⟨Phase.inputTransfer, 0, 10, 10⟩ : PlottedBar) ∈
        plottedPhases rowInputOnly ∧
    (0 : ℚ) < 10 := by
  have hmem : (⟨Phase.inputTransfer, 0, 10, 10⟩ : PlottedBar) ∈
      plottedPhases rowInputOnly := by
    norm_num [plottedPhases, phaseBar, rowInputOnly]
  exact ⟨hmem,
    plotted_phase_positive rowInputOnly ⟨Phase.inputTransfer, 0, 10, 10⟩ hmem⟩

/-- A normalized row with every field absent or defaulted, the base for
concrete rows. -/
def emptyJobRec : JobRec :=
  { cluster_id := none, proc_id := none, job_status := 0, exit_code := 0,
    failed := true, job_start_time := none, input_start_time := none,
    input_end_time := none, output_start_time := none,
    output_end_time := none, job_end_time := none, completion_time := none,
    input_transfer_duration := none, job_duration := none,
    output_transfer_duration := none, total_duration := none }

/-- A row with the given job start and completion instants. -/
def jobRecOfTimes (s c : ℚ) : JobRec :=
  { emptyJobRec with
    job_start_time := some s
    completion_time := some c }

/-- C8 counterexample: called with resolution 0 on a nonempty valid job
set, the estimator is not rejected with a configuration error before
computation; it runs until the division `total_duration / resolution`
raises ZeroDivisionError. -/
theorem resolution_validation_counterexample :
    plot_concurrent_jobs [jobRecOfTimes 0 10] 0 =
      ConcResult.runtimeError PyError.zeroDivision ∧
    ∀ q, plot_concurrent_jobs [jobRecOfTimes 0 10] 0 ≠
      ConcResult.configError q := by
  have h : plot_concurrent_jobs [jobRecOfTimes 0 10] 0 =
      ConcResult.runtimeError PyError.zeroDivision := by
    simp [plot_concurrent_jobs, validJobs, jobRecOfTimes, emptyJobRec]
  exact ⟨h, fun q hq => by rw [h] at hq; cases hq⟩

/-- C8 (amended): the estimator performs no validation of the resolution:
no call ever produces a configuration error; with resolution 0 and a
nonempty valid job set it fails with a division-by-zero only after the
valid rows and the time range have been computed. -/
theorem resolution_no_validation (df : List JobRec) (res : ℚ) :
    (∀ q, plot_concurrent_jobs df res ≠ ConcResult.configError q) ∧
    (res = 0 → (validJobs df).isEmpty = false →
      plot_concurrent_jobs df res =
        ConcResult.runtimeError PyError.zeroDivision) := by
  constructor
  · intro q
    unfold plot_concurrent_jobs
    split
    · simp
    · split
      · simp
      · split
        · simp
        · split <;> simp
  · intro h0 hne
    unfold plot_concurrent_jobs
    simp [hne, h0]

/-- C8 witness: the amended behavior at a concrete call. -/
theorem resolution_no_validation_witness :
    plot_concurrent_jobs [jobRecOfTimes 5 25] 0 =
      ConcResult.runtimeError PyError.zeroDivision :=
  (resolution_no_validation [jobRecOfTimes 5 25] 0).2 rfl
    (by simp [validJobs, jobRecOfTimes, emptyJobRec])

/-- C7 counterexample: with a single completion instant the elapsed time
is zero, and the builder raises ZeroDivisionError at the rate computation
instead of reporting an undefined rate. -/
theorem completion_rate_counterexample :
    plot_completion_curve [(5 : ℚ)] = Except.error PyError.zeroDivision ∧
    ¬ ∃ s, plot_completion_curve [(5 : ℚ)] = Except.ok s ∧ s.rate = none := by
  have h : plot_completion_curve [(5 : ℚ)] =
      Except.error PyError.zeroDivision := by
    norm_num [plot_completion_curve, listMax, listMin]
  refine ⟨h, ?_⟩
  rintro ⟨s, hs, -⟩
  rw [h] at hs
  cases hs

/-- C7 (amended): the builder divides unconditionally: when the elapsed
time `last - first` is zero it raises ZeroDivisionError, and otherwise it
reports the rate `count / (totalElapsed / 60)` in jobs per minute. -/
theorem completion_rate_amended (cs : List ℚ) (hne : cs ≠ []) :
    (listMax cs - listMin cs = 0 →
      plot_completion_curve cs = Except.error PyError.zeroDivision) ∧
    (listMax cs - listMin cs ≠ 0 →
      plot_completion_curve cs =
        Except.ok
          { curve := (List.insertionSort (· ≤ ·) cs).enum.map
              (fun p => (p.2, p.1 + 1))
            first_completion := listMin cs
            last_completion := listMax cs
            total_duration := listMax cs - listMin cs
            rate := some ((cs.length : ℚ) /
              ((listMax cs - listMin cs) / 60)) }) := by
  have hemp : cs.isEmpty = false := by
    simpa [List.isEmpty_iff] using hne
  constructor
  · intro h0
    simp [plot_completion_curve, hemp, h0]
  · intro h0
    simp [plot_completion_curve, hemp, h0]

/-- C7 witness: a zero-elapsed input errors; a 30-second-elapsed input of
two jobs reports 4 jobs per minute. -/
theorem completion_rate_amended_witness :
    plot_completion_curve [(5 : ℚ)] = Except.error PyError.zeroDivision ∧
    ∃ s, plot_completion_curve [(0 : ℚ), 30] = Except.ok s ∧
      s.rate = some 4 := by
  refine ⟨(completion_rate_amended [5] (by simp)).1
    (by norm_num [listMax, listMin]), ?_⟩
  refine ⟨_, (completion_rate_amended [0, 30] (by simp)).2 ?_, ?_⟩
  · norm_num [listMax, listMin]
  · norm_num [listMax, listMin]

/-- C1: for every job set and every bin of the estimator, the concurrency
count of that bin equals the number of valid jobs (both instants present)
whose half-open interval from job start to completion contains the bin
center: jobStart is at most the center and the center is strictly before
completion. -/
theorem concurrency_bin_count (df : List JobRec) (res : ℚ) (i : ℕ)
    (hi : i < (concurrentCounts (validJobs df) res).length) :
    (concurrentCounts (validJobs df) res).getD i 0 =
      (validJobs df).countP (fun r =>
        decide (r.job_start_time.getD 0 ≤
          binCenter (concStart (validJobs df)) res i) &&
        decide (binCenter (concStart (validJobs df)) res i <
          r.completion_time.getD 0)) := by
  unfold concurrentCounts at hi ⊢
  rw [List.getD_eq_getElem?_getD, List.getElem?_eq_getElem hi,
    Option.getD_some, List.getElem_map, List.getElem_range,
    List.countP_eq_length_filter]

/-- The literal concurrency scenario: three jobs spanning 0-10, 5-15 and
20-25 seconds. -/
def dfScenario : List JobRec :=
  [jobRecOfTimes 0 10, jobRecOfTimes 5 15, jobRecOfTimes 20 25]

/-- C1 witness: the literal scenario at resolution 5, bin 1 (centered at
7.5). -/
theorem concurrency_bin_count_witness :
    1 < (concurrentCounts (validJobs dfScenario) 5).length ∧
    (concurrentCounts (validJobs dfScenario) 5).getD 1 0 =
      (validJobs dfScenario).countP (fun r =>
        decide (r.job_start_time.getD 0 ≤
          binCenter (concStart (validJobs dfScenario)) 5 1) &&
        decide (binCenter (concStart (validJobs dfScenario)) 5 1 <
          r.completion_time.getD 0)) := by
  have hvalid : validJobs dfScenario = dfScenario := by
    simp [validJobs, dfScenario, jobRecOfTimes, emptyJobRec]
  have hstart : concStart (validJobs dfScenario) = 0 := by
    rw [hvalid]
    norm_num [concStart, dfScenario, jobRecOfTimes, emptyJobRec, listMin,
      List.filterMap_cons, min_def]
  have hend : concEnd (validJobs dfScenario) = 25 := by
    rw [hvalid]
    norm_num [concEnd, dfScenario, jobRecOfTimes, emptyJobRec, listMax,
      List.filterMap_cons, max_def]
  have hbins : concNumBins (validJobs dfScenario) 5 = 5 := by
    rw [concNumBins, hstart, hend]
    norm_num
  have hlen : 1 < (concurrentCounts (validJobs dfScenario) 5).length := by
    simp [concurrentCounts, hbins]
  exact ⟨hlen, concurrency_bin_count dfScenario 5 1 hlen⟩

/-- An in-bounds `getD` is a member of the list. -/
theorem getD_mem_of_lt {l : List ℚ} {i : ℕ} (d : ℚ) (h : i < l.length) :
    l.getD i d ∈ l := by
  rw [List.getD_eq_getElem?_getD, List.getElem?_eq_getElem h,
    Option.getD_some]
  exact List.getElem_mem h

/-- A fold with `min` is bounded by its seed and by every element. -/
theorem foldl_min_le (l : List ℚ) : ∀ a : ℚ,
    l.foldl min a ≤ a ∧ ∀ x ∈ l, l.foldl min a ≤ x := by
  induction l with
  | nil =>
    intro a
    exact ⟨le_refl a, by simp⟩
  | cons y t ih =>
    intro a
    simp only [List.foldl_cons]
    constructor
    · exact le_trans (ih (min a y)).1 (min_le_left a y)
    · intro x hx
      rcases List.mem_cons.mp hx with rfl | hx
      · exact le_trans (ih (min a x)).1 (min_le_right a x)
      · exact (ih (min a y)).2 x hx

/-- A fold with `max` bounds its seed and every element. -/
theorem le_foldl_max (l : List ℚ) : ∀ a : ℚ,
    a ≤ l.foldl max a ∧ ∀ x ∈ l, x ≤ l.foldl max a := by
  induction l with
  | nil =>
    intro a
    exact ⟨le_refl a, by simp⟩
  | cons y t ih =>
    intro a
    simp only [List.foldl_cons]
    constructor
    · exact le_trans (le_max_left a y) (ih (max a y)).1
    · intro x hx
      rcases List.mem_cons.mp hx with rfl | hx
      · exact le_trans (le_max_right a x) (ih (max a x)).1
      · exact (ih (max a y)).2 x hx

/-- The sample minimum bounds every element from below. -/
theorem listMin_le {l : List ℚ} {x : ℚ} (hx : x ∈ l) : listMin l ≤ x := by
  cases l with
  | nil => cases hx
  | cons a t =>
    unfold listMin
    rcases List.mem_cons.mp hx with rfl | hx
    · exact (foldl_min_le t x).1
    · exact (foldl_min_le t a).2 x hx

/-- The sample maximum bounds every element from above. -/
theorem le_listMax {l : List ℚ} {x : ℚ} (hx : x ∈ l) : x ≤ listMax l := by
  cases l with
  | nil => cases hx
  | cons a t =>
    unfold listMax
    rcases List.mem_cons.mp hx with rfl | hx
    · exact (le_foldl_max t x).1
    · exact (le_foldl_max t a).2 x hx

/-- When the sample minimum equals the maximum, all elements coincide. -/
theorem all_eq_of_min_eq_max {l : List ℚ} (h : listMin l = listMax l)
    {x : ℚ} (hx : x ∈ l) : x = listMin l :=
  le_antisymm (h ▸ le_listMax hx) (listMin_le hx)

/-- Sum of a constant list. -/
theorem sum_all_eq {l : List ℚ} {v : ℚ} (h : ∀ x ∈ l, x = v) :
    l.sum = l.length * v := by
  induction l with
  | nil => simp
  | cons a t ih =>
    rw [List.sum_cons, List.length_cons,
      h a (List.mem_cons_self a t),
      ih (fun x hx => h x (List.mem_cons_of_mem a hx))]
    push_cast
    ring

/-- Mean of a constant nonempty list. -/
theorem meanOf_all_eq {l : List ℚ} {v : ℚ} (hne : l ≠ [])
    (h : ∀ x ∈ l, x = v) : meanOf l = v := by
  have hn : (l.length : ℚ) ≠ 0 := by
    exact_mod_cast Nat.pos_iff_ne_zero.mp (List.length_pos.mpr hne)
  rw [meanOf, sum_all_eq h, mul_div_cancel_left₀ v hn]

/-- Median of a constant nonempty list. -/
theorem medianOf_all_eq {l : List ℚ} {v : ℚ} (hne : l ≠ [])
    (h : ∀ x ∈ l, x = v) : medianOf l = v := by
  have hs : ∀ x ∈ sortedAsc l, x = v := by
    intro x hx
    apply h
    unfold sortedAsc at hx
    rwa [List.mem_insertionSort] at hx
  have hpos : 0 < (sortedAsc l).length := by
    unfold sortedAsc
    rw [List.length_insertionSort]
    exact List.length_pos.mpr hne
  unfold medianOf
  split
  · exact hs _ (getD_mem_of_lt 0 (Nat.div_lt_self hpos (by norm_num)))
  · rw [hs _ (getD_mem_of_lt 0 (by omega)),
      hs _ (getD_mem_of_lt 0 (Nat.div_lt_self hpos (by norm_num)))]
    ring

/-- Every element of the filtered positive sample is positive. -/
theorem posSample_pos {data : List (Option ℚ)} {x : ℚ}
    (hx : x ∈ posSample data) : 0 < x := by
  have h := (List.mem_filter.mp hx).2
  simpa using h

/-- Under heavy-tail trimming, the trim bound is at most the sample
maximum: the condition mean > 5 * median forbids a constant sample, so
the auto-bin upper edge is exactly the maximum and the bound is the
minimum of it with the 99th percentile. -/
theorem trimBound_le_max {pos : List ℚ} (hne : pos ≠ [])
    (hpos : ∀ x ∈ pos, 0 < x)
    (htrim : meanOf pos > 5 * medianOf pos) :
    trimBound pos ≤ listMax pos := by
  have hmm : listMin pos ≠ listMax pos := by
    intro heq
    obtain ⟨x0, hx0⟩ := List.exists_mem_of_ne_nil pos hne
    have hall : ∀ x ∈ pos, x = listMin pos := fun x hx =>
      all_eq_of_min_eq_max heq hx
    have hvpos : 0 < listMin pos := hall x0 hx0 ▸ hpos x0 hx0
    have hmean : meanOf pos = listMin pos := meanOf_all_eq hne hall
    have hmed : medianOf pos = listMin pos := medianOf_all_eq hne hall
    rw [hmean, hmed] at htrim
    linarith
  have hedge : histAutoLastEdge pos = listMax pos := by
    rw [histAutoLastEdge, if_neg hmm]
  calc trimBound pos ≤ histAutoLastEdge pos := min_le_left _ _
    _ = listMax pos := hedge

/-- C2: trimming activates exactly when the mean exceeds five times the
median of the filtered positive sample; when it does, the trim upper
bound is the minimum of the 99th percentile and the auto-binning upper
edge, the excluded count is the number of samples strictly above the
bound, and the bound is at most the sample maximum; when it does not, no
bound is reported and nothing is excluded. -/
theorem distribution_trimming (data : List (Option ℚ)) (s : DistSummary)
    (hs : analyzeColumn data = some s) :
    (s.trimmed = true ↔
      meanOf (posSample data) > 5 * medianOf (posSample data)) ∧
    (s.trimmed = true →
      s.trimUpperBound =
        some (min (percentile99 (posSample data))
          (histAutoLastEdge (posSample data))) ∧
      s.excludedCount = (posSample data).countP
        (fun x => decide (trimBound (posSample data) < x)) ∧
      trimBound (posSample data) ≤ listMax (posSample data)) ∧
    (s.trimmed = false → s.trimUpperBound = none ∧ s.excludedCount = 0) := by
  unfold analyzeColumn at hs
  split at hs
  · exact absurd hs (by simp)
  · next hemp =>
    have hne : posSample data ≠ [] := by
      simpa [List.isEmpty_iff] using hemp
    split at hs
    · next htrim =>
      injection hs with hs
      subst hs
      refine ⟨by simpa using htrim, fun _ => ⟨?_, rfl, ?_⟩, by simp⟩
      · simp [trimBound, min_comm]
      · exact trimBound_le_max hne (fun x hx => posSample_pos hx) htrim
    · next htrim =>
      injection hs with hs
      subst hs
      exact ⟨by simpa using htrim, by simp, fun _ => ⟨rfl, rfl⟩⟩

/-- The literal duration sample of the specification:
{10, 10, 11, 9, 10, 500}. -/
def dSample : List (Option ℚ) :=
  [some 10, some 10, some 11, some 9, some 10, some 500]

/-- The summary the analyzer computes for the literal sample. -/
def sSample : DistSummary :=
  { mean := 275 / 3
    median := 10
    trimmed := true
    trimUpperBound := some (9511 / 20)
    excludedCount := 1
    sampleCount := 6 }

/-- C2 witness: the analyzer on the literal sample {10,10,11,9,10,500}
detects the heavy tail (mean 275/3 against median 10), trims at
9511/20 = 475.55 (the 99th percentile, below the auto-bin edge 500) and
excludes the single sample 500. -/
theorem distribution_trimming_witness :
    analyzeColumn dSample = some sSample ∧
    ((sSample.trimmed = true ↔
      meanOf (posSample dSample) > 5 * medianOf (posSample dSample)) ∧
    (sSample.trimmed = true →
      sSample.trimUpperBound =
        some (min (percentile99 (posSample dSample))
          (histAutoLastEdge (posSample dSample))) ∧
      sSample.excludedCount = (posSample dSample).countP
        (fun x => decide (trimBound (posSample dSample) < x)) ∧
      trimBound (posSample dSample) ≤ listMax (posSample dSample)) ∧
    (sSample.trimmed = false →
      sSample.trimUpperBound = none ∧ sSample.excludedCount = 0)) := by
  have hps : posSample dSample = [10, 10, 11, 9, 10, 500] := by
    norm_num [posSample, dSample, List.filterMap_cons]
  have hsort : sortedAsc [(10 : ℚ), 10, 11, 9, 10, 500] =
      [9, 10, 10, 10, 11, 500] := by
    norm_num [sortedAsc, List.insertionSort, List.orderedInsert]
  have hmean : meanOf (posSample dSample) = 275 / 3 := by
    rw [hps]
    norm_num [meanOf]
  have hmed : medianOf (posSample dSample) = 10 := by
    rw [hps]
    unfold medianOf
    rw [hsort]
    norm_num
  have hedge : histAutoLastEdge (posSample dSample) = 500 := by
    rw [hps]
    rw [histAutoLastEdge, if_neg]
    · norm_num [listMax, max_def]
    · norm_num [listMin, listMax, min_def, max_def]
  have hpct : pctPos [(10 : ℚ), 10, 11, 9, 10, 500] = 99 / 20 := by
    rw [pctPos, hsort]
    norm_num
  have hfloor : ⌊pctPos [(10 : ℚ), 10, 11, 9, 10, 500]⌋ = 4 := by
    rw [hpct, Int.floor_eq_iff]
    norm_num
  have hp99 : percentile99 (posSample dSample) = 9511 / 20 := by
    rw [hps]
    unfold percentile99
    rw [hfloor, hpct, hsort]
    have h4 : (4 : ℤ).toNat = 4 := rfl
    rw [h4]
    norm_num
  have htb : trimBound (posSample dSample) = 9511 / 20 := by
    rw [trimBound, hedge, hp99]
    norm_num [min_def]
  have hcount : (posSample dSample).countP
      (fun x => decide (trimBound (posSample dSample) < x)) = 1 := by
    simp only [htb]
    rw [hps]
    norm_num [List.countP_cons]
  have hlen6 : (posSample dSample).length = 6 := by
    rw [hps]
    rfl
  have hni : (posSample dSample).isEmpty = false := by
    rw [hps]
    rfl
  have hgt : meanOf (posSample dSample) >
      5 * medianOf (posSample dSample) := by
    rw [hmean, hmed]
    norm_num
  have hmain : analyzeColumn dSample = some sSample := by
    unfold analyzeColumn
    rw [hni]
    rw [if_neg (by simp), if_pos hgt]
    rw [hmean, hmed, hcount, htb, hlen6]
    rfl
  exact ⟨hmain, distribution_trimming dSample sSample hmain⟩

end Condor
